import Mathlib

/-!
Request interception chain of `handlers/middleware.go`.

A shallow embedding of the three middleware stages of the `handlers` package
(`MiddlewareValidateUser`, `MiddlewareValidateAccessToken`,
`MiddlewareValidateRefreshToken`) and of `extractToken`.

A stage is embedded as a function from the collaborators of the handler and
the incoming request to the ordered list of effects it performs (its trace):
writes to the response writer, log calls, calls to collaborators and the call
of the next handler.  Collaborators are parameters; each stage calls each of
them at most once, so a function of the arguments of the call describes them
without loss.
-/

namespace Handlers

/-! ## Go values -/

/-- Go `error` value carrying its message, as built by `errors.New`. -/
structure GoError where
  text : String
deriving DecidableEq, Repr

/-- Method `Error()` of an error value. -/
def GoError.Error (e : GoError) : String := e.text

/-- Go `errors.New`. -/
def errors_New (text : String) : GoError := ⟨text⟩

/-- Segments of a character sequence around every occurrence of `sep`:
the loop of Go `strings.Split` for a one-byte separator (cut at each
occurrence, keep empty segments, the remainder is the last segment). -/
def splitChars (sep : Char) : List Char → List (List Char)
  | [] => [[]]
  | c :: cs =>
    if c = sep then [] :: splitChars sep cs
    else
      match splitChars sep cs with
      | [] => [[c]]
      | seg :: segs => (c :: seg) :: segs

/-- Go `strings.Split(s, sep)` for a separator of one byte; the only call in
the package passes `" "`. -/
def strings_Split (s : String) (sep : Char) : List String :=
  (splitChars sep s.data).map String.mk

/-- Go `strings.Join(elems, sep)`. -/
def strings_Join : List String → String → String
  | [], _ => ""
  | [e], _ => e
  | e :: es, sep => e ++ sep ++ strings_Join es sep

/-- Go `http.StatusBadRequest`. -/
def StatusBadRequest : Nat := 400

/-! ## Data model -/

/-- Modelled from the spec: the declaration of `data.User` is not part of the
sources; the principal has a unique identifier and a token-hash secret, the
two fields the handlers read. -/
structure User where
  ID : String
  TokenHash : String
deriving DecidableEq, Repr

/-- Modelled from the spec: the declaration of `GenericResponse` is not part
of the sources; the failure body is a flat status/message pair. -/
structure GenericResponse where
  Status : Bool
  Message : String
deriving DecidableEq, Repr

/-- Modelled from the spec: `data.ValidationErrors` is not part of the
sources; field validation produces a collection of errors, each with a
human-readable text. -/
structure ValidationError where
  text : String
deriving DecidableEq, Repr

abbrev ValidationErrors := List ValidationError

/-- Method `Errors()` of the validation errors: the error strings in order. -/
def ValidationErrors.Errors (errs : ValidationErrors) : List String :=
  errs.map (fun e => e.text)

/-- Context keys of the package (`UserKey{}` and `UserIDKey{}`). -/
inductive CtxKey where
  | UserKey
  | UserIDKey
deriving DecidableEq, Repr

/-- Values the stages attach to a context. -/
inductive CtxVal where
  | user (u : User)
  | userID (id : String)
deriving DecidableEq, Repr

/-- Go `context.Context`: the background context, a context derived with a
deadline, or a context derived with a key/value pair. -/
inductive Context where
  | Background
  | WithDeadline (parent : Context) (deadline : Nat)
  | WithValue (parent : Context) (key : CtxKey) (val : CtxVal)
deriving DecidableEq, Repr

/-- Method `Value(key)` of a context: the innermost value attached under the key. -/
def Context.Value : Context → CtxKey → Option CtxVal
  | .Background, _ => none
  | .WithDeadline parent _, k => parent.Value k
  | .WithValue parent key val, k => if key = k then some val else parent.Value k

/-- Method `Deadline()` of a context: `context.WithDeadline(parent, d)` keeps
the deadline of the parent when that one is earlier than `d`. -/
def Context.Deadline : Context → Option Nat
  | .Background => none
  | .WithDeadline parent d =>
    match parent.Deadline with
    | some p => some (min p d)
    | none => some d
  | .WithValue parent _ _ => parent.Deadline

/-- Go `http.Header`: keys with their lists of values. -/
abbrev Header := List (String × List String)

/-- Method `Get(key)` of a header: the first value under the key, `""` when
the key is absent or has no value. -/
def Header.Get (h : Header) (key : String) : String :=
  match h.lookup key with
  | some (v :: _) => v
  | _ => ""

/-- The parts of `*http.Request` the stages read. -/
structure Request where
  Header : Header
  Body : String
  ctx : Context
deriving DecidableEq, Repr

/-- Method `Context()` of a request. -/
def Request.Context (r : Request) : Context := r.ctx

/-- Method `WithContext(ctx)` of a request. -/
def Request.WithContext (r : Request) (ctx : Handlers.Context) : Request :=
  { r with ctx := ctx }

/-! ## Token extraction -/

/-- Function `extractToken` of `handlers/middleware.go`. -/
def extractToken (r : Request) : String × Option GoError :=
  let authHeader := r.Header.Get "Authorization"
  let authHeaderContent := strings_Split authHeader ' '
  if authHeaderContent.length ≠ 2 then
    ("", some (errors_New "Token not provided or malformed"))
  else
    (authHeaderContent.getD 1 "", none)

/-! ## Collaborators and effects -/

/-- Authentication service of the handler (`uh.authService`); results are
Go result tuples, the error last. -/
structure Authentication where
  ValidateAccessToken : String → String × Option GoError
  ValidateRefreshToken : String → String × String × Option GoError
  GenerateCustomKey : String → String → String

/-- Modelled from the spec: the interface of the principal storage of the
handler (`uh.repo`) is not part of the sources; its lookup is
`GetUserByID(ctx, id) -> (Principal, error)`.  The stage dereferences the
result (`*user`), so the principal comes as a pointer: `none` is the nil
pointer, which the interface does not exclude even when the error is absent. -/
structure Repository where
  GetUserByID : Context → String → Option User × Option GoError

/-- Field validation of the handler (`uh.validator`). -/
structure Validation where
  Validate : User → ValidationErrors

/-- The handler with its collaborators; `FromJSON` stands for the decoder
`data.FromJSON`, which fills the user it is given from the request body. -/
structure UserHandler where
  authService : Authentication
  repo : Repository
  validator : Validation
  FromJSON : User → String → User × Option GoError

/-- Arguments handed to the logger. -/
inductive LogArg where
  | str (s : String)
  | err (e : GoError)
  | errs (v : ValidationErrors)
deriving DecidableEq, Repr

/-- One effect of a stage, in the order the stage performs them. -/
inductive Event where
  /-- Call `w.Header().Set(key, value)`. -/
  | headerSet (key value : String)
  /-- Call `uh.logger.Debug(msg, args...)`. -/
  | logDebug (msg : String) (args : List LogArg)
  /-- Call `uh.logger.Error(msg, args...)`. -/
  | logError (msg : String) (args : List LogArg)
  /-- Call `data.FromJSON(user, r.Body)`. -/
  | fromJSON (body : String)
  /-- Call `uh.validator.Validate(user)`. -/
  | validate (u : User)
  /-- Call `uh.authService.ValidateAccessToken(token)`. -/
  | validateAccessToken (token : String)
  /-- Call `uh.authService.ValidateRefreshToken(token)`. -/
  | validateRefreshToken (token : String)
  /-- Call `uh.repo.GetUserByID(ctx, id)`. -/
  | getUserByID (ctx : Context) (id : String)
  /-- Call `uh.authService.GenerateCustomKey(id, hash)`. -/
  | generateCustomKey (id hash : String)
  /-- Call `w.WriteHeader(code)`. -/
  | writeHeader (code : Nat)
  /-- Call `data.ToJSON(&resp, w)`: the body written to the response. -/
  | toJSON (resp : GenericResponse)
  /-- Call `next.ServeHTTP(w, r)`. -/
  | serveNext (r : Request)
  /-- Run-time failure on the dereference of a nil pointer: the handler stops
  there and performs no further effect. -/
  | nilDereference
deriving DecidableEq, Repr

abbrev Trace := List Event

/-! ## The three stages -/

/-- Handler returned by `MiddlewareValidateUser(next)`, run on a request. -/
def MiddlewareValidateUser (uh : UserHandler) (r : Request) : Trace :=
  let t := [Event.headerSet "Content-Type" "application/json",
            Event.logDebug "user json" [.str r.Body]]
  let user : User := { ID := "", TokenHash := "" }
  let t := t ++ [Event.fromJSON r.Body]
  let (user, err) := uh.FromJSON user r.Body
  match err with
  | some err =>
    t ++ [Event.logError "deserialization of user json failed" [.str "error", .err err],
          Event.writeHeader StatusBadRequest,
          Event.toJSON { Status := false, Message := err.Error }]
  | none =>
    let t := t ++ [Event.validate user]
    let errs := uh.validator.Validate user
    if errs.length ≠ 0 then
      t ++ [Event.logError "validation of user json failed" [.str "error", .errs errs],
            Event.writeHeader StatusBadRequest,
            Event.toJSON { Status := false, Message := strings_Join errs.Errors "," }]
    else
      let ctx := Context.WithValue r.Context CtxKey.UserKey (CtxVal.user user)
      let r := r.WithContext ctx
      t ++ [Event.serveNext r]

/-- Handler returned by `MiddlewareValidateAccessToken(next)`, run on a request. -/
def MiddlewareValidateAccessToken (uh : UserHandler) (r : Request) : Trace :=
  let t := [Event.headerSet "Content-Type" "application/json",
            Event.logDebug "validating access token" []]
  let (token, err) := extractToken r
  match err with
  | some _ =>
    t ++ [Event.logError "Token not provided or malformed" [],
          Event.writeHeader StatusBadRequest,
          Event.toJSON { Status := false,
                         Message := "Authentication failed. Token not provided or malformed" }]
  | none =>
    let t := t ++ [Event.logDebug "token present in header" [.str token],
                   Event.validateAccessToken token]
    let (userID, err) := uh.authService.ValidateAccessToken token
    match err with
    | some err =>
      t ++ [Event.logError "token validation failed" [.str "error", .err err],
            Event.writeHeader StatusBadRequest,
            Event.toJSON { Status := false, Message := "Authentication failed. Invalid token" }]
    | none =>
      let t := t ++ [Event.logDebug "access token validated" []]
      let ctx := Context.WithValue r.Context CtxKey.UserIDKey (CtxVal.userID userID)
      let r := r.WithContext ctx
      t ++ [Event.serveNext r]

/-- Handler returned by `MiddlewareValidateRefreshToken(next)`, run on a request.
The error of the lookup is the only guard before `user.ID` is read, so a nil
user without an error stops the handler at that dereference. -/
def MiddlewareValidateRefreshToken (uh : UserHandler) (r : Request) : Trace :=
  let t := [Event.headerSet "Content-Type" "application/json",
            Event.logDebug "validating refresh token" [],
            Event.logDebug "auth header" [.str (r.Header.Get "Authorization")]]
  let (token, err) := extractToken r
  match err with
  | some _ =>
    t ++ [Event.logError "token not provided or malformed" [],
          Event.writeHeader StatusBadRequest,
          Event.toJSON { Status := false,
                         Message := "Authentication failed. Token not provided or malformed" }]
  | none =>
    let t := t ++ [Event.logDebug "token present in header" [.str token],
                   Event.validateRefreshToken token]
    let (userID, customKey, err) := uh.authService.ValidateRefreshToken token
    match err with
    | some err =>
      t ++ [Event.logError "token validation failed" [.str "error", .err err],
            Event.writeHeader StatusBadRequest,
            Event.toJSON { Status := false, Message := "Authentication failed. Invalid token" }]
    | none =>
      let t := t ++ [Event.logDebug "refresh token validated" [],
                     Event.getUserByID Context.Background userID]
      let (user, err) := uh.repo.GetUserByID Context.Background userID
      match err with
      | some err =>
        t ++ [Event.logError "invalid token: wrong userID while parsing" [.err err],
              Event.writeHeader StatusBadRequest,
              Event.toJSON { Status := false, Message := "Unable to fetch corresponding user" }]
      | none =>
        match user with
        | none => t ++ [Event.nilDereference]
        | some user =>
          let t := t ++ [Event.generateCustomKey user.ID user.TokenHash]
          let actualCustomKey := uh.authService.GenerateCustomKey user.ID user.TokenHash
          if customKey ≠ actualCustomKey then
            t ++ [Event.logDebug "wrong token: authetincation failed" [],
                  Event.writeHeader StatusBadRequest,
                  Event.toJSON { Status := false,
                                 Message := "Authentication failed. Invalid token" }]
          else
            let ctx := Context.WithValue r.Context CtxKey.UserKey (CtxVal.user user)
            let r := r.WithContext ctx
            t ++ [Event.serveNext r]

/-! ## Observations on a trace -/

/-- Writes of a status code or of a body to the response writer. -/
def Event.isWrite : Event → Bool
  | .writeHeader _ => true
  | .toJSON _ => true
  | _ => false

/-- The response the stage itself produces: its status and body writes, in order. -/
def response (t : Trace) : Trace := t.filter Event.isWrite

/-- Requests handed to the next handler, in order. -/
def nextCalls (t : Trace) : List Request :=
  t.filterMap (fun e => match e with | .serveNext r => some r | _ => none)

/-- Tokens handed to `ValidateAccessToken`, in order. -/
def accessValidations (t : Trace) : List String :=
  t.filterMap (fun e => match e with | .validateAccessToken s => some s | _ => none)

/-- Users handed to the field validator, in order. -/
def validatorRuns (t : Trace) : List User :=
  t.filterMap (fun e => match e with | .validate u => some u | _ => none)

/-- Arguments of the principal lookups, in order. -/
def lookups (t : Trace) : List (Context × String) :=
  t.filterMap (fun e => match e with | .getUserByID c i => some (c, i) | _ => none)

/-- Values written to response headers, in order. -/
def headerSets (t : Trace) : List (String × String) :=
  t.filterMap (fun e => match e with | .headerSet k v => some (k, v) | _ => none)

/-- The failure response: status 400, then the body `{status: false, message}`. -/
def badRequest (message : String) : Trace :=
  [Event.writeHeader StatusBadRequest, Event.toJSON { Status := false, Message := message }]

/-- Outcome (a): the stage writes status 400 once, then one body whose status
field is false, and never invokes the next handler. -/
def ShortCircuits (t : Trace) : Prop :=
  (∃ message, response t = badRequest message) ∧ nextCalls t = []

/-- Outcome (b): the stage invokes the next handler once, with the request
under a context enriched by one key/value pair, and writes nothing itself. -/
def Forwards (r : Request) (t : Trace) : Prop :=
  (∃ key val, nextCalls t = [r.WithContext (Context.WithValue r.Context key val)]) ∧
    response t = []

/-- The stage sets `Content-Type: application/json` as its first effect and
sets no response header afterwards. -/
def ContentTypeFirst (t : Trace) : Prop :=
  ∃ rest, t = Event.headerSet "Content-Type" "application/json" :: rest ∧ headerSets rest = []

/-! ## The reading of the split by runs of whitespace -/

/-- The parts of a character sequence separated by runs of whitespace
(spaces, tabs, line breaks); `cur` holds the part being read, reversed. -/
def whitespacePartsAux : List Char → List Char → List (List Char)
  | [], cur => if cur = [] then [] else [cur.reverse]
  | c :: cs, cur =>
    if c.isWhitespace then
      if cur = [] then whitespacePartsAux cs [] else cur.reverse :: whitespacePartsAux cs []
    else whitespacePartsAux cs (c :: cur)

/-- Parts of a header value separated by runs of any whitespace, the reading
of the edge-case policy of the specification. -/
def specWhitespaceParts (s : String) : List String :=
  (whitespacePartsAux s.data []).map String.mk

/-! ## Example requests -/

/-- Request with the single header line `Authorization: value` and the
background context. -/
def requestWithAuthorization (value : String) : Request :=
  { Header := [("Authorization", [value])], Body := "", ctx := Context.Background }

/-- Request without any header. -/
def requestWithoutHeader : Request :=
  { Header := [], Body := "", ctx := Context.Background }

/-- An authentication service for the examples: one valid access token, one
valid refresh token issued for principal `u1` under the secret `h1`, and one
valid refresh token for a principal `u2`. -/
def exampleAuth : Authentication where
  ValidateAccessToken := fun token =>
    if token = "abc.def.ghi" then ("u1", none) else ("", some (errors_New "token is expired"))
  ValidateRefreshToken := fun token =>
    if token = "rrr.sss.ttt" then ("u1", "u1:h1", none)
    else if token = "ggg.hhh.iii" then ("u2", "u2:h9", none)
    else ("", "", some (errors_New "signature is invalid"))
  GenerateCustomKey := fun id hash => id ++ ":" ++ hash

/-- A store holding principal `u1` with the given current secret. -/
def exampleRepo (secret : String) : Repository where
  GetUserByID := fun _ id =>
    if id = "u1" then (some { ID := "u1", TokenHash := secret }, none)
    else (none, some (errors_New "sql: no rows in result set"))

/-- A store whose lookup returns neither a principal nor an error. -/
def nilRepo : Repository where
  GetUserByID := fun _ _ => (none, none)

/-- A validator for the examples: the identifier and the secret are required. -/
def exampleValidation : Validation where
  Validate := fun u =>
    (if u.ID = "" then [{ text := "ID is required" }] else []) ++
    (if u.TokenHash = "" then [{ text := "TokenHash is required" }] else [])

/-- A decoder for the examples: bodies of the form `id secret`. -/
def exampleFromJSON (user : User) (body : String) : User × Option GoError :=
  match strings_Split body ' ' with
  | [a, b] => ({ ID := a, TokenHash := b }, none)
  | _ => (user, some (errors_New "unexpected end of JSON input"))

/-- A handler for the examples, its store holding `u1` with the given secret. -/
def exampleHandler (secret : String) : UserHandler where
  authService := exampleAuth
  repo := exampleRepo secret
  validator := exampleValidation
  FromJSON := exampleFromJSON

/-- A handler whose store returns neither a principal nor an error. -/
def nilLookupHandler : UserHandler where
  authService := exampleAuth
  repo := nilRepo
  validator := exampleValidation
  FromJSON := exampleFromJSON

/-- Request carrying the refresh token of the examples under a context with a deadline. -/
def requestWithDeadline : Request :=
  { Header := [("Authorization", ["Bearer rrr.sss.ttt"])], Body := "",
    ctx := Context.WithDeadline Context.Background 30 }

/-- Request with the given body and no header. -/
def requestWithBody (body : String) : Request :=
  { Header := [], Body := body, ctx := Context.Background }

/-! ## Token extraction: theorems -/

theorem splitChars_length (sep : Char) (l : List Char) :
    (splitChars sep l).length = l.count sep + 1 := by
  induction l with
  | nil => simp [splitChars]
  | cons c cs ih =>
    unfold splitChars
    by_cases hc : c = sep
    · subst hc
      simp [ih]
    · have hne : (c == sep) = false := by simpa using hc
      rw [if_neg hc, List.count_cons, hne]
      cases hs : splitChars sep cs with
      | nil => rw [hs] at ih; simp at ih
      | cons seg segs => rw [hs] at ih; simpa using ih

theorem strings_Split_length (s : String) (sep : Char) :
    (strings_Split s sep).length = s.data.count sep + 1 := by
  simp [strings_Split, splitChars_length]

/-- C1: `extractToken` succeeds exactly when the Authorization header value
splits on the space character into exactly two segments, and then returns the
second segment; with one segment (the empty or absent header included) or
three or more segments it returns the empty string and an error. -/
theorem extractToken_two_segments (r : Request) :
    ((extractToken r).2 = none ↔
        (strings_Split (r.Header.Get "Authorization") ' ').length = 2) ∧
    (∀ a b : String, strings_Split (r.Header.Get "Authorization") ' ' = [a, b] →
        extractToken r = (b, none)) ∧
    ((strings_Split (r.Header.Get "Authorization") ' ').length = 1 ∨
      3 ≤ (strings_Split (r.Header.Get "Authorization") ' ').length →
        extractToken r = ("", some (errors_New "Token not provided or malformed"))) ∧
    (r.Header.Get "Authorization" = "" →
        extractToken r = ("", some (errors_New "Token not provided or malformed"))) ∧
    (r.Header.lookup "Authorization" = none → r.Header.Get "Authorization" = "") ∧
    1 ≤ (strings_Split (r.Header.Get "Authorization") ' ').length := by
  refine ⟨?_, ?_, ?_, ?_, ?_, ?_⟩
  · unfold extractToken
    by_cases h : (strings_Split (r.Header.Get "Authorization") ' ').length = 2
    · simp [h]
    · simp [h]
  · intro a b hab
    simp [extractToken, hab]
  · intro h
    have h2 : (strings_Split (r.Header.Get "Authorization") ' ').length ≠ 2 := by omega
    simp [extractToken, h2]
  · intro h
    have h2 : (strings_Split (r.Header.Get "Authorization") ' ').length ≠ 2 := by
      rw [h, strings_Split_length]; decide
    simp [extractToken, h2]
  · intro h
    simp [Header.Get, h]
  · rw [strings_Split_length]; omega

theorem extractToken_two_segments_witness :
    extractToken (requestWithAuthorization "Bearer abc.def.ghi") = ("abc.def.ghi", none) ∧
    extractToken requestWithoutHeader
      = ("", some (errors_New "Token not provided or malformed")) ∧
    extractToken (requestWithAuthorization "Bearer abc def")
      = ("", some (errors_New "Token not provided or malformed")) :=
  ⟨(extractToken_two_segments (requestWithAuthorization "Bearer abc.def.ghi")).2.1
      "Bearer" "abc.def.ghi" (by decide),
   (extractToken_two_segments requestWithoutHeader).2.2.2.1 (by decide),
   (extractToken_two_segments (requestWithAuthorization "Bearer abc def")).2.2.1
      (Or.inr (by decide))⟩

/-- C7, as stated, fails: the header value `Bearer abc<TAB>def` has three
whitespace-separated parts, yet `extractToken` accepts it and returns the
token `abc<TAB>def`. -/
theorem extractToken_accepts_tab_separated :
    (specWhitespaceParts "Bearer abc\tdef").length ≠ 2 ∧
    extractToken (requestWithAuthorization "Bearer abc\tdef") = ("abc\tdef", none) := by
  decide

/-- C7, amended: a header value that does not split into exactly two segments
on the single space character, which is one that does not hold exactly one
space character, is malformed whatever its scheme keyword: `extractToken`
returns the empty string and an error. -/
theorem extractToken_malformed (r : Request)
    (h : (strings_Split (r.Header.Get "Authorization") ' ').length ≠ 2) :
    extractToken r = ("", some (errors_New "Token not provided or malformed")) ∧
    (r.Header.Get "Authorization").data.count ' ' ≠ 1 := by
  refine ⟨by simp [extractToken, h], ?_⟩
  intro hc
  apply h
  rw [strings_Split_length, hc]

theorem extractToken_malformed_witness :
    (strings_Split ((requestWithAuthorization "abc.def.ghi").Header.Get "Authorization") ' ').length
        ≠ 2 ∧
    extractToken (requestWithAuthorization "abc.def.ghi")
      = ("", some (errors_New "Token not provided or malformed")) :=
  ⟨by decide, (extractToken_malformed (requestWithAuthorization "abc.def.ghi") (by decide)).1⟩

/-! ## Access-token stage -/

/-- C3: when the Authorization header splits into exactly two segments and
`ValidateAccessToken` accepts the second one with principal id `p`, the
access-token stage invokes the next handler exactly once, with the request
under a context that holds `p` under the user-id key, and writes neither a
status code nor a body itself. -/
theorem access_stage_forwards (uh : UserHandler) (r : Request) (a b p : String)
    (hsplit : strings_Split (r.Header.Get "Authorization") ' ' = [a, b])
    (hvalid : uh.authService.ValidateAccessToken b = (p, none)) :
    nextCalls (MiddlewareValidateAccessToken uh r)
        = [r.WithContext (Context.WithValue r.Context CtxKey.UserIDKey (CtxVal.userID p))] ∧
    (∀ r2 ∈ nextCalls (MiddlewareValidateAccessToken uh r),
        r2.Context.Value CtxKey.UserIDKey = some (CtxVal.userID p)) ∧
    response (MiddlewareValidateAccessToken uh r) = [] := by
  have hx : extractToken r = (b, none) := by simp [extractToken, hsplit]
  have hn : nextCalls (MiddlewareValidateAccessToken uh r)
      = [r.WithContext (Context.WithValue r.Context CtxKey.UserIDKey (CtxVal.userID p))] := by
    simp [MiddlewareValidateAccessToken, hx, hvalid, nextCalls]
  refine ⟨hn, ?_, ?_⟩
  · intro r2 hr2
    rw [hn] at hr2
    simp at hr2
    subst hr2
    simp [Request.Context, Request.WithContext, Context.Value]
  · simp [MiddlewareValidateAccessToken, hx, hvalid, response, Event.isWrite]

theorem access_stage_forwards_witness :
    nextCalls (MiddlewareValidateAccessToken (exampleHandler "h1")
        (requestWithAuthorization "Bearer abc.def.ghi"))
      = [(requestWithAuthorization "Bearer abc.def.ghi").WithContext
          (Context.WithValue Context.Background CtxKey.UserIDKey (CtxVal.userID "u1"))] ∧
    response (MiddlewareValidateAccessToken (exampleHandler "h1")
        (requestWithAuthorization "Bearer abc.def.ghi")) = [] :=
  have h := access_stage_forwards (exampleHandler "h1")
    (requestWithAuthorization "Bearer abc.def.ghi") "Bearer" "abc.def.ghi" "u1"
    (by decide) (by decide)
  ⟨h.1, h.2.2⟩

/-- C4: in the access-token stage a failed extraction yields status 400 with
the message about a missing or malformed token, without any call of
`ValidateAccessToken` or of the next handler; a token rejected by
`ValidateAccessToken` yields status 400 with the message about an invalid
token, without any call of the next handler; the two messages differ. -/
theorem access_stage_rejects (uh : UserHandler) (r : Request) :
    ((extractToken r).2 ≠ none →
      response (MiddlewareValidateAccessToken uh r)
          = badRequest "Authentication failed. Token not provided or malformed" ∧
      accessValidations (MiddlewareValidateAccessToken uh r) = [] ∧
      nextCalls (MiddlewareValidateAccessToken uh r) = []) ∧
    ((extractToken r).2 = none →
      (uh.authService.ValidateAccessToken (extractToken r).1).2 ≠ none →
      response (MiddlewareValidateAccessToken uh r)
          = badRequest "Authentication failed. Invalid token" ∧
      accessValidations (MiddlewareValidateAccessToken uh r) = [(extractToken r).1] ∧
      nextCalls (MiddlewareValidateAccessToken uh r) = []) ∧
    "Authentication failed. Token not provided or malformed"
        ≠ "Authentication failed. Invalid token" ∧
    (∀ message, badRequest message
        = [Event.writeHeader 400, Event.toJSON { Status := false, Message := message }]) := by
  refine ⟨?_, ?_, by decide, fun _ => rfl⟩
  · intro hx
    rcases hxe : extractToken r with ⟨token, err⟩
    rw [hxe] at hx
    cases err with
    | none => exact absurd rfl hx
    | some e =>
      simp [MiddlewareValidateAccessToken, hxe, response, Event.isWrite, badRequest,
        accessValidations, nextCalls]
  · intro hx hv
    rcases hxe : extractToken r with ⟨token, err⟩
    rw [hxe] at hx hv
    simp only at hx hv
    subst hx
    rcases hve : uh.authService.ValidateAccessToken token with ⟨userID, verr⟩
    rw [hve] at hv
    cases verr with
    | none => exact absurd rfl hv
    | some e =>
      simp [MiddlewareValidateAccessToken, hxe, hve, response, Event.isWrite, badRequest,
        accessValidations, nextCalls]

theorem access_stage_rejects_witness :
    (response (MiddlewareValidateAccessToken (exampleHandler "h1")
        (requestWithAuthorization "abc.def.ghi"))
      = badRequest "Authentication failed. Token not provided or malformed" ∧
     accessValidations (MiddlewareValidateAccessToken (exampleHandler "h1")
        (requestWithAuthorization "abc.def.ghi")) = [] ∧
     nextCalls (MiddlewareValidateAccessToken (exampleHandler "h1")
        (requestWithAuthorization "abc.def.ghi")) = []) ∧
    (response (MiddlewareValidateAccessToken (exampleHandler "h1")
        (requestWithAuthorization "Bearer xyz"))
      = badRequest "Authentication failed. Invalid token" ∧
     accessValidations (MiddlewareValidateAccessToken (exampleHandler "h1")
        (requestWithAuthorization "Bearer xyz")) = ["xyz"] ∧
     nextCalls (MiddlewareValidateAccessToken (exampleHandler "h1")
        (requestWithAuthorization "Bearer xyz")) = []) :=
  ⟨(access_stage_rejects (exampleHandler "h1") (requestWithAuthorization "abc.def.ghi")).1
      (by decide),
   (access_stage_rejects (exampleHandler "h1") (requestWithAuthorization "Bearer xyz")).2.1
      (by decide) (by decide)⟩

/-! ## Payload-validation stage -/

/-- C5: in the payload-validation stage a decoding error `e` yields status
400 with the text of `e` as message, and neither the validator nor the next
handler runs; validation errors yield status 400 with the error strings joined
by commas, in order, and the next handler does not run; otherwise the next
handler is invoked exactly once with the decoded user under the user key and
the stage writes nothing. -/
theorem validate_stage_outcomes (uh : UserHandler) (r : Request) :
    (∀ user e, uh.FromJSON { ID := "", TokenHash := "" } r.Body = (user, some e) →
      response (MiddlewareValidateUser uh r) = badRequest e.Error ∧
      validatorRuns (MiddlewareValidateUser uh r) = [] ∧
      nextCalls (MiddlewareValidateUser uh r) = []) ∧
    (∀ user, uh.FromJSON { ID := "", TokenHash := "" } r.Body = (user, none) →
      uh.validator.Validate user ≠ [] →
      response (MiddlewareValidateUser uh r)
          = badRequest (strings_Join (uh.validator.Validate user).Errors ",") ∧
      validatorRuns (MiddlewareValidateUser uh r) = [user] ∧
      nextCalls (MiddlewareValidateUser uh r) = []) ∧
    (∀ user, uh.FromJSON { ID := "", TokenHash := "" } r.Body = (user, none) →
      uh.validator.Validate user = [] →
      nextCalls (MiddlewareValidateUser uh r)
          = [r.WithContext (Context.WithValue r.Context CtxKey.UserKey (CtxVal.user user))] ∧
      (r.WithContext (Context.WithValue r.Context CtxKey.UserKey (CtxVal.user user))).Context.Value
          CtxKey.UserKey = some (CtxVal.user user) ∧
      response (MiddlewareValidateUser uh r) = []) := by
  refine ⟨?_, ?_, ?_⟩
  · intro user e hd
    simp [MiddlewareValidateUser, hd, response, Event.isWrite, badRequest, validatorRuns,
      nextCalls]
  · intro user hd hv
    simp [MiddlewareValidateUser, hd, hv, response, Event.isWrite, badRequest, validatorRuns,
      nextCalls]
  · intro user hd hv
    simp [MiddlewareValidateUser, hd, hv, response, Event.isWrite, validatorRuns,
      nextCalls, Request.Context, Request.WithContext, Context.Value]

theorem validate_stage_outcomes_witness :
    (response (MiddlewareValidateUser (exampleHandler "h1") (requestWithBody "u1"))
      = badRequest "unexpected end of JSON input" ∧
     validatorRuns (MiddlewareValidateUser (exampleHandler "h1") (requestWithBody "u1")) = [] ∧
     nextCalls (MiddlewareValidateUser (exampleHandler "h1") (requestWithBody "u1")) = []) ∧
    (response (MiddlewareValidateUser (exampleHandler "h1") (requestWithBody " "))
      = badRequest "ID is required,TokenHash is required" ∧
     validatorRuns (MiddlewareValidateUser (exampleHandler "h1") (requestWithBody " "))
      = [{ ID := "", TokenHash := "" }] ∧
     nextCalls (MiddlewareValidateUser (exampleHandler "h1") (requestWithBody " ")) = []) ∧
    (nextCalls (MiddlewareValidateUser (exampleHandler "h1") (requestWithBody "u1 h1"))
      = [(requestWithBody "u1 h1").WithContext (Context.WithValue Context.Background
          CtxKey.UserKey (CtxVal.user { ID := "u1", TokenHash := "h1" }))] ∧
     response (MiddlewareValidateUser (exampleHandler "h1") (requestWithBody "u1 h1")) = []) :=
  ⟨(validate_stage_outcomes (exampleHandler "h1") (requestWithBody "u1")).1
      { ID := "", TokenHash := "" } (errors_New "unexpected end of JSON input") (by decide),
   (validate_stage_outcomes (exampleHandler "h1") (requestWithBody " ")).2.1
      { ID := "", TokenHash := "" } (by decide) (by decide),
   have h := (validate_stage_outcomes (exampleHandler "h1") (requestWithBody "u1 h1")).2.2
      { ID := "u1", TokenHash := "h1" } (by decide) (by decide)
   ⟨h.1, h.2.2⟩⟩

/-! ## Refresh-token stage -/

/-- C2: in the refresh-token stage, when extraction succeeds,
`ValidateRefreshToken` returns a principal id and a custom key, and the lookup
returns the principal `u`, the stage forwards exactly when the custom key
equals `GenerateCustomKey u.ID u.TokenHash`; on a match the forwarded context
holds `u` under the user key, on a mismatch the stage answers 400 with the
message about an invalid token and does not invoke the next handler. -/
theorem refresh_stage_key_check (uh : UserHandler) (r : Request)
    (token principalId customKey : String) (u : User)
    (hx : extractToken r = (token, none))
    (hv : uh.authService.ValidateRefreshToken token = (principalId, customKey, none))
    (hu : uh.repo.GetUserByID Context.Background principalId = (some u, none)) :
    (nextCalls (MiddlewareValidateRefreshToken uh r) ≠ [] ↔
        customKey = uh.authService.GenerateCustomKey u.ID u.TokenHash) ∧
    (customKey = uh.authService.GenerateCustomKey u.ID u.TokenHash →
      nextCalls (MiddlewareValidateRefreshToken uh r)
          = [r.WithContext (Context.WithValue r.Context CtxKey.UserKey (CtxVal.user u))] ∧
      (r.WithContext (Context.WithValue r.Context CtxKey.UserKey (CtxVal.user u))).Context.Value
          CtxKey.UserKey = some (CtxVal.user u) ∧
      response (MiddlewareValidateRefreshToken uh r) = []) ∧
    (customKey ≠ uh.authService.GenerateCustomKey u.ID u.TokenHash →
      response (MiddlewareValidateRefreshToken uh r)
          = badRequest "Authentication failed. Invalid token" ∧
      nextCalls (MiddlewareValidateRefreshToken uh r) = []) := by
  by_cases hk : customKey = uh.authService.GenerateCustomKey u.ID u.TokenHash
  · simp [MiddlewareValidateRefreshToken, hx, hv, hu, hk, response, Event.isWrite,
      nextCalls, Request.Context, Request.WithContext, Context.Value]
  · simp [MiddlewareValidateRefreshToken, hx, hv, hu, hk, response, Event.isWrite,
      nextCalls, badRequest]

theorem refresh_stage_key_check_witness :
    (nextCalls (MiddlewareValidateRefreshToken (exampleHandler "h1")
        (requestWithAuthorization "Bearer rrr.sss.ttt"))
      = [(requestWithAuthorization "Bearer rrr.sss.ttt").WithContext
          (Context.WithValue Context.Background CtxKey.UserKey
            (CtxVal.user { ID := "u1", TokenHash := "h1" }))] ∧
     response (MiddlewareValidateRefreshToken (exampleHandler "h1")
        (requestWithAuthorization "Bearer rrr.sss.ttt")) = []) ∧
    (response (MiddlewareValidateRefreshToken (exampleHandler "h2")
        (requestWithAuthorization "Bearer rrr.sss.ttt"))
      = badRequest "Authentication failed. Invalid token" ∧
     nextCalls (MiddlewareValidateRefreshToken (exampleHandler "h2")
        (requestWithAuthorization "Bearer rrr.sss.ttt")) = []) :=
  have h1 := (refresh_stage_key_check (exampleHandler "h1")
      (requestWithAuthorization "Bearer rrr.sss.ttt") "rrr.sss.ttt" "u1" "u1:h1"
      { ID := "u1", TokenHash := "h1" } (by decide) (by decide) (by decide)).2.1 (by decide)
  ⟨⟨h1.1, h1.2.2⟩,
   (refresh_stage_key_check (exampleHandler "h2")
      (requestWithAuthorization "Bearer rrr.sss.ttt") "rrr.sss.ttt" "u1" "u1:h1"
      { ID := "u1", TokenHash := "h2" } (by decide) (by decide) (by decide)).2.2 (by decide)⟩

/-- C10, as stated, fails: for a request whose context carries a deadline and
which reaches the lookup, `GetUserByID` receives the background context, which
differs from the request context and has no deadline. -/
theorem refresh_lookup_ignores_request_context :
    lookups (MiddlewareValidateRefreshToken (exampleHandler "h1") requestWithDeadline)
      = [(Context.Background, "u1")] ∧
    requestWithDeadline.Context ≠ Context.Background ∧
    requestWithDeadline.Context.Deadline = some 30 ∧
    Context.Background.Deadline = none := by
  decide

/-- C10, amended: in the refresh-token stage every principal lookup is made
under the background context, which carries no deadline and no value, whatever
the request context is; a request that reaches the lookup causes exactly one
lookup, with the principal id returned by `ValidateRefreshToken`. -/
theorem refresh_lookup_background (uh : UserHandler) (r : Request) :
    (∀ c ∈ lookups (MiddlewareValidateRefreshToken uh r), c.1 = Context.Background) ∧
    (∀ token principalId customKey, extractToken r = (token, none) →
      uh.authService.ValidateRefreshToken token = (principalId, customKey, none) →
      lookups (MiddlewareValidateRefreshToken uh r) = [(Context.Background, principalId)]) ∧
    Context.Background.Deadline = none ∧
    (∀ key, Context.Background.Value key = none) := by
  refine ⟨?_, ?_, rfl, fun _ => rfl⟩
  · intro c hc
    rcases hx : extractToken r with ⟨token, _ | e⟩
    · rcases hv : uh.authService.ValidateRefreshToken token with ⟨principalId, customKey, _ | e⟩
      · rcases hu : uh.repo.GetUserByID Context.Background principalId with ⟨ou, _ | e⟩
        · cases ou with
          | none =>
            simp [MiddlewareValidateRefreshToken, hx, hv, hu, lookups] at hc
            simp [hc]
          | some u =>
            by_cases hk : customKey = uh.authService.GenerateCustomKey u.ID u.TokenHash
            · simp [MiddlewareValidateRefreshToken, hx, hv, hu, hk, lookups] at hc
              simp [hc]
            · simp [MiddlewareValidateRefreshToken, hx, hv, hu, hk, lookups] at hc
              simp [hc]
        · simp [MiddlewareValidateRefreshToken, hx, hv, hu, lookups] at hc
          simp [hc]
      · simp [MiddlewareValidateRefreshToken, hx, hv, lookups] at hc
    · simp [MiddlewareValidateRefreshToken, hx, lookups] at hc
  · intro token principalId customKey hx hv
    rcases hu : uh.repo.GetUserByID Context.Background principalId with ⟨ou, _ | e⟩
    · cases ou with
      | none => simp [MiddlewareValidateRefreshToken, hx, hv, hu, lookups]
      | some u =>
        by_cases hk : customKey = uh.authService.GenerateCustomKey u.ID u.TokenHash
        · simp [MiddlewareValidateRefreshToken, hx, hv, hu, hk, lookups]
        · simp [MiddlewareValidateRefreshToken, hx, hv, hu, hk, lookups]
    · simp [MiddlewareValidateRefreshToken, hx, hv, hu, lookups]

theorem refresh_lookup_background_witness :
    lookups (MiddlewareValidateRefreshToken (exampleHandler "h1") requestWithDeadline)
      = [(Context.Background, "u1")] :=
  (refresh_lookup_background (exampleHandler "h1") requestWithDeadline).2.1
    "rrr.sss.ttt" "u1" "u1:h1" (by decide) (by decide)

/-! ## Uniform outcomes of the three stages -/

theorem not_shortCircuits_and_forwards (r : Request) (t : Trace) :
    ¬ (ShortCircuits t ∧ Forwards r t) := by
  rintro ⟨⟨_, hn⟩, ⟨⟨key, val, hf⟩, _⟩⟩
  rw [hn] at hf
  exact absurd hf (by simp)

theorem validate_stage_outcome (uh : UserHandler) (r : Request) :
    ShortCircuits (MiddlewareValidateUser uh r) ∨ Forwards r (MiddlewareValidateUser uh r) := by
  rcases hd : uh.FromJSON { ID := "", TokenHash := "" } r.Body with ⟨user, _ | e⟩
  · by_cases hv : uh.validator.Validate user = []
    · right
      simp [Forwards, MiddlewareValidateUser, hd, hv, response, Event.isWrite, nextCalls]
      exact ⟨_, _, rfl⟩
    · left
      simp [ShortCircuits, MiddlewareValidateUser, hd, hv, response, Event.isWrite, nextCalls,
        badRequest]
  · left
    simp [ShortCircuits, MiddlewareValidateUser, hd, response, Event.isWrite, nextCalls,
      badRequest]

theorem access_stage_outcome (uh : UserHandler) (r : Request) :
    ShortCircuits (MiddlewareValidateAccessToken uh r) ∨
      Forwards r (MiddlewareValidateAccessToken uh r) := by
  rcases hx : extractToken r with ⟨token, _ | e⟩
  · rcases hv : uh.authService.ValidateAccessToken token with ⟨userID, _ | e⟩
    · right
      simp [Forwards, MiddlewareValidateAccessToken, hx, hv, response, Event.isWrite, nextCalls]
      exact ⟨_, _, rfl⟩
    · left
      simp [ShortCircuits, MiddlewareValidateAccessToken, hx, hv, response, Event.isWrite,
        nextCalls, badRequest]
  · left
    simp [ShortCircuits, MiddlewareValidateAccessToken, hx, response, Event.isWrite,
      nextCalls, badRequest]

theorem refresh_stage_outcome (uh : UserHandler) (r : Request)
    (hnil : ∀ ctx id, (uh.repo.GetUserByID ctx id).2 = none →
      (uh.repo.GetUserByID ctx id).1 ≠ none) :
    ShortCircuits (MiddlewareValidateRefreshToken uh r) ∨
      Forwards r (MiddlewareValidateRefreshToken uh r) := by
  rcases hx : extractToken r with ⟨token, _ | e⟩
  · rcases hv : uh.authService.ValidateRefreshToken token with ⟨principalId, customKey, _ | e⟩
    · rcases hu : uh.repo.GetUserByID Context.Background principalId with ⟨ou, _ | e⟩
      · cases ou with
        | none =>
          have h := hnil Context.Background principalId
          rw [hu] at h
          exact absurd rfl (h rfl)
        | some u =>
          by_cases hk : customKey = uh.authService.GenerateCustomKey u.ID u.TokenHash
          · right
            simp [Forwards, MiddlewareValidateRefreshToken, hx, hv, hu, hk, response,
              Event.isWrite, nextCalls]
            exact ⟨_, _, rfl⟩
          · left
            simp [ShortCircuits, MiddlewareValidateRefreshToken, hx, hv, hu, hk, response,
              Event.isWrite, nextCalls, badRequest]
      · left
        simp [ShortCircuits, MiddlewareValidateRefreshToken, hx, hv, hu, response,
          Event.isWrite, nextCalls, badRequest]
    · left
      simp [ShortCircuits, MiddlewareValidateRefreshToken, hx, hv, response, Event.isWrite,
        nextCalls, badRequest]
  · left
    simp [ShortCircuits, MiddlewareValidateRefreshToken, hx, response, Event.isWrite,
      nextCalls, badRequest]

theorem refresh_lookup_failed_shortCircuits (uh : UserHandler) (r : Request)
    (token principalId customKey : String)
    (hx : extractToken r = (token, none))
    (hv : uh.authService.ValidateRefreshToken token = (principalId, customKey, none))
    (hu : (uh.repo.GetUserByID Context.Background principalId).2 ≠ none) :
    ShortCircuits (MiddlewareValidateRefreshToken uh r) := by
  rcases hue : uh.repo.GetUserByID Context.Background principalId with ⟨ou, _ | e⟩
  · rw [hue] at hu
    exact absurd rfl hu
  · simp [ShortCircuits, MiddlewareValidateRefreshToken, hx, hv, hue, response,
      Event.isWrite, nextCalls, badRequest]

theorem access_response_invalid (uh : UserHandler) (r : Request) (token : String)
    (hx : extractToken r = (token, none))
    (hv : (uh.authService.ValidateAccessToken token).2 ≠ none) :
    response (MiddlewareValidateAccessToken uh r)
      = badRequest "Authentication failed. Invalid token" := by
  rcases hve : uh.authService.ValidateAccessToken token with ⟨userID, _ | e⟩
  · rw [hve] at hv
    exact absurd rfl hv
  · simp [MiddlewareValidateAccessToken, hx, hve, response, Event.isWrite, badRequest]

theorem refresh_response_invalid (uh : UserHandler) (r : Request) (token : String)
    (hx : extractToken r = (token, none))
    (hv : (uh.authService.ValidateRefreshToken token).2.2 ≠ none) :
    response (MiddlewareValidateRefreshToken uh r)
      = badRequest "Authentication failed. Invalid token" := by
  rcases hve : uh.authService.ValidateRefreshToken token with ⟨principalId, customKey, _ | e⟩
  · rw [hve] at hv
    exact absurd rfl hv
  · simp [MiddlewareValidateRefreshToken, hx, hve, response, Event.isWrite, badRequest]

theorem refresh_response_lookup_failed (uh : UserHandler) (r : Request)
    (token principalId customKey : String)
    (hx : extractToken r = (token, none))
    (hv : uh.authService.ValidateRefreshToken token = (principalId, customKey, none))
    (hu : (uh.repo.GetUserByID Context.Background principalId).2 ≠ none) :
    response (MiddlewareValidateRefreshToken uh r)
      = badRequest "Unable to fetch corresponding user" := by
  rcases hue : uh.repo.GetUserByID Context.Background principalId with ⟨u, _ | e⟩
  · rw [hue] at hu
    exact absurd rfl hu
  · simp [MiddlewareValidateRefreshToken, hx, hv, hue, response, Event.isWrite, badRequest]

theorem refresh_response_key_mismatch (uh : UserHandler) (r : Request)
    (token principalId customKey : String) (u : User)
    (hx : extractToken r = (token, none))
    (hv : uh.authService.ValidateRefreshToken token = (principalId, customKey, none))
    (hu : uh.repo.GetUserByID Context.Background principalId = (some u, none))
    (hk : customKey ≠ uh.authService.GenerateCustomKey u.ID u.TokenHash) :
    response (MiddlewareValidateRefreshToken uh r)
      = badRequest "Authentication failed. Invalid token" := by
  simp [MiddlewareValidateRefreshToken, hx, hv, hu, hk, response, Event.isWrite, badRequest]

theorem validate_stage_contentType (uh : UserHandler) (r : Request) :
    ContentTypeFirst (MiddlewareValidateUser uh r) := by
  rcases hd : uh.FromJSON { ID := "", TokenHash := "" } r.Body with ⟨user, _ | e⟩
  · by_cases hv : uh.validator.Validate user = []
    · simp [ContentTypeFirst, MiddlewareValidateUser, hd, hv, headerSets]
    · simp [ContentTypeFirst, MiddlewareValidateUser, hd, hv, headerSets]
  · simp [ContentTypeFirst, MiddlewareValidateUser, hd, headerSets]

theorem access_stage_contentType (uh : UserHandler) (r : Request) :
    ContentTypeFirst (MiddlewareValidateAccessToken uh r) := by
  rcases hx : extractToken r with ⟨token, _ | e⟩
  · rcases hv : uh.authService.ValidateAccessToken token with ⟨userID, _ | e⟩
    · simp [ContentTypeFirst, MiddlewareValidateAccessToken, hx, hv, headerSets]
    · simp [ContentTypeFirst, MiddlewareValidateAccessToken, hx, hv, headerSets]
  · simp [ContentTypeFirst, MiddlewareValidateAccessToken, hx, headerSets]

theorem refresh_stage_contentType (uh : UserHandler) (r : Request) :
    ContentTypeFirst (MiddlewareValidateRefreshToken uh r) := by
  rcases hx : extractToken r with ⟨token, _ | e⟩
  · rcases hv : uh.authService.ValidateRefreshToken token with ⟨principalId, customKey, _ | e⟩
    · rcases hu : uh.repo.GetUserByID Context.Background principalId with ⟨ou, _ | e⟩
      · cases ou with
        | none => simp [ContentTypeFirst, MiddlewareValidateRefreshToken, hx, hv, hu, headerSets]
        | some u =>
          by_cases hk : customKey = uh.authService.GenerateCustomKey u.ID u.TokenHash
          · simp [ContentTypeFirst, MiddlewareValidateRefreshToken, hx, hv, hu, hk, headerSets]
          · simp [ContentTypeFirst, MiddlewareValidateRefreshToken, hx, hv, hu, hk, headerSets]
      · simp [ContentTypeFirst, MiddlewareValidateRefreshToken, hx, hv, hu, headerSets]
    · simp [ContentTypeFirst, MiddlewareValidateRefreshToken, hx, hv, headerSets]
  · simp [ContentTypeFirst, MiddlewareValidateRefreshToken, hx, headerSets]

/-- C6: the rejection response of the access-token and refresh-token stages
does not depend on the error a collaborator returned or on the token: two runs
(any handlers, any requests with well-formed headers) rejected at the same
step (token validation, principal lookup, key comparison) write the same
status and body; in the refresh stage a token-validation failure and a
custom-key mismatch both write 400 with the message about an invalid token. -/
theorem rejection_response_uniform (uh1 uh2 : UserHandler) (r1 r2 : Request)
    (token1 token2 : String)
    (hx1 : extractToken r1 = (token1, none)) (hx2 : extractToken r2 = (token2, none)) :
    ((uh1.authService.ValidateAccessToken token1).2 ≠ none →
      (uh2.authService.ValidateAccessToken token2).2 ≠ none →
      response (MiddlewareValidateAccessToken uh1 r1)
        = response (MiddlewareValidateAccessToken uh2 r2)) ∧
    ((uh1.authService.ValidateRefreshToken token1).2.2 ≠ none →
      (uh2.authService.ValidateRefreshToken token2).2.2 ≠ none →
      response (MiddlewareValidateRefreshToken uh1 r1)
        = response (MiddlewareValidateRefreshToken uh2 r2)) ∧
    (∀ id1 key1 id2 key2,
      uh1.authService.ValidateRefreshToken token1 = (id1, key1, none) →
      uh2.authService.ValidateRefreshToken token2 = (id2, key2, none) →
      (uh1.repo.GetUserByID Context.Background id1).2 ≠ none →
      (uh2.repo.GetUserByID Context.Background id2).2 ≠ none →
      response (MiddlewareValidateRefreshToken uh1 r1)
        = response (MiddlewareValidateRefreshToken uh2 r2)) ∧
    (∀ id1 key1 id2 key2 u1 u2,
      uh1.authService.ValidateRefreshToken token1 = (id1, key1, none) →
      uh2.authService.ValidateRefreshToken token2 = (id2, key2, none) →
      uh1.repo.GetUserByID Context.Background id1 = (some u1, none) →
      uh2.repo.GetUserByID Context.Background id2 = (some u2, none) →
      key1 ≠ uh1.authService.GenerateCustomKey u1.ID u1.TokenHash →
      key2 ≠ uh2.authService.GenerateCustomKey u2.ID u2.TokenHash →
      response (MiddlewareValidateRefreshToken uh1 r1)
        = response (MiddlewareValidateRefreshToken uh2 r2)) ∧
    (∀ id2 key2 u2,
      (uh1.authService.ValidateRefreshToken token1).2.2 ≠ none →
      uh2.authService.ValidateRefreshToken token2 = (id2, key2, none) →
      uh2.repo.GetUserByID Context.Background id2 = (some u2, none) →
      key2 ≠ uh2.authService.GenerateCustomKey u2.ID u2.TokenHash →
      response (MiddlewareValidateRefreshToken uh1 r1)
        = badRequest "Authentication failed. Invalid token" ∧
      response (MiddlewareValidateRefreshToken uh2 r2)
        = badRequest "Authentication failed. Invalid token") := by
  refine ⟨?_, ?_, ?_, ?_, ?_⟩
  · intro h1 h2
    rw [access_response_invalid uh1 r1 token1 hx1 h1,
      access_response_invalid uh2 r2 token2 hx2 h2]
  · intro h1 h2
    rw [refresh_response_invalid uh1 r1 token1 hx1 h1,
      refresh_response_invalid uh2 r2 token2 hx2 h2]
  · intro id1 key1 id2 key2 hv1 hv2 hu1 hu2
    rw [refresh_response_lookup_failed uh1 r1 token1 id1 key1 hx1 hv1 hu1,
      refresh_response_lookup_failed uh2 r2 token2 id2 key2 hx2 hv2 hu2]
  · intro id1 key1 id2 key2 u1 u2 hv1 hv2 hu1 hu2 hk1 hk2
    rw [refresh_response_key_mismatch uh1 r1 token1 id1 key1 u1 hx1 hv1 hu1 hk1,
      refresh_response_key_mismatch uh2 r2 token2 id2 key2 u2 hx2 hv2 hu2 hk2]
  · intro id2 key2 u2 h1 hv2 hu2 hk2
    exact ⟨refresh_response_invalid uh1 r1 token1 hx1 h1,
      refresh_response_key_mismatch uh2 r2 token2 id2 key2 u2 hx2 hv2 hu2 hk2⟩

theorem rejection_response_uniform_witness :
    response (MiddlewareValidateRefreshToken (exampleHandler "h1")
        (requestWithAuthorization "Bearer forged"))
      = badRequest "Authentication failed. Invalid token" ∧
    response (MiddlewareValidateRefreshToken (exampleHandler "h2")
        (requestWithAuthorization "Bearer rrr.sss.ttt"))
      = badRequest "Authentication failed. Invalid token" :=
  (rejection_response_uniform (exampleHandler "h1") (exampleHandler "h2")
      (requestWithAuthorization "Bearer forged") (requestWithAuthorization "Bearer rrr.sss.ttt")
      "forged" "rrr.sss.ttt" (by decide) (by decide)).2.2.2.2
    "u1" "u1:h1" { ID := "u1", TokenHash := "h2" } (by decide) (by decide) (by decide)
    (by decide)

/-- C8, as stated, fails: when the lookup of the refresh stage returns
neither a principal nor an error, the stage stops at the dereference of the
nil principal; it has written nothing and has not invoked the next handler, so
it neither short-circuits nor forwards. -/
theorem refresh_stage_nil_lookup_no_outcome :
    nilLookupHandler.repo.GetUserByID Context.Background "u1" = (none, none) ∧
    response (MiddlewareValidateRefreshToken nilLookupHandler
        (requestWithAuthorization "Bearer rrr.sss.ttt")) = [] ∧
    nextCalls (MiddlewareValidateRefreshToken nilLookupHandler
        (requestWithAuthorization "Bearer rrr.sss.ttt")) = [] ∧
    ¬ ShortCircuits (MiddlewareValidateRefreshToken nilLookupHandler
        (requestWithAuthorization "Bearer rrr.sss.ttt")) ∧
    ¬ Forwards (requestWithAuthorization "Bearer rrr.sss.ttt")
        (MiddlewareValidateRefreshToken nilLookupHandler
          (requestWithAuthorization "Bearer rrr.sss.ttt")) := by
  have hr : response (MiddlewareValidateRefreshToken nilLookupHandler
      (requestWithAuthorization "Bearer rrr.sss.ttt")) = [] := by decide
  have hn : nextCalls (MiddlewareValidateRefreshToken nilLookupHandler
      (requestWithAuthorization "Bearer rrr.sss.ttt")) = [] := by decide
  refine ⟨rfl, hr, hn, ?_, ?_⟩
  · rintro ⟨⟨message, hm⟩, _⟩
    rw [hr] at hm
    exact absurd hm (by simp [badRequest])
  · rintro ⟨⟨key, val, hf⟩, _⟩
    rw [hn] at hf
    exact absurd hf (by simp)

/-- C8, amended: the payload-validation and access-token stages, on every
request and for every result of their collaborators, and the refresh-token
stage, whenever the lookup returns a principal each time it returns no error,
end in exactly one of two outcomes: the stage writes status 400 once with a
body whose status is false and never invokes the next handler, or it invokes
the next handler once with an enriched context and writes nothing itself; a
failed principal lookup in the refresh stage is the first outcome, with the
message `Unable to fetch corresponding user`. -/
theorem stage_short_circuits_or_forwards (uh : UserHandler) (r : Request) :
    ((ShortCircuits (MiddlewareValidateUser uh r) ∨ Forwards r (MiddlewareValidateUser uh r)) ∧
      ¬ (ShortCircuits (MiddlewareValidateUser uh r) ∧
          Forwards r (MiddlewareValidateUser uh r))) ∧
    ((ShortCircuits (MiddlewareValidateAccessToken uh r) ∨
        Forwards r (MiddlewareValidateAccessToken uh r)) ∧
      ¬ (ShortCircuits (MiddlewareValidateAccessToken uh r) ∧
          Forwards r (MiddlewareValidateAccessToken uh r))) ∧
    (((∀ ctx id, (uh.repo.GetUserByID ctx id).2 = none →
          (uh.repo.GetUserByID ctx id).1 ≠ none) →
        ShortCircuits (MiddlewareValidateRefreshToken uh r) ∨
          Forwards r (MiddlewareValidateRefreshToken uh r)) ∧
      ¬ (ShortCircuits (MiddlewareValidateRefreshToken uh r) ∧
          Forwards r (MiddlewareValidateRefreshToken uh r))) ∧
    (∀ token principalId customKey, extractToken r = (token, none) →
      uh.authService.ValidateRefreshToken token = (principalId, customKey, none) →
      (uh.repo.GetUserByID Context.Background principalId).2 ≠ none →
      ShortCircuits (MiddlewareValidateRefreshToken uh r) ∧
      response (MiddlewareValidateRefreshToken uh r)
        = badRequest "Unable to fetch corresponding user") := by
  refine ⟨⟨validate_stage_outcome uh r, not_shortCircuits_and_forwards r _⟩,
    ⟨access_stage_outcome uh r, not_shortCircuits_and_forwards r _⟩,
    ⟨fun hnil => refresh_stage_outcome uh r hnil, not_shortCircuits_and_forwards r _⟩, ?_⟩
  intro token principalId customKey hx hv hu
  exact ⟨refresh_lookup_failed_shortCircuits uh r token principalId customKey hx hv hu,
    refresh_response_lookup_failed uh r token principalId customKey hx hv hu⟩

theorem stage_short_circuits_or_forwards_witness :
    (ShortCircuits (MiddlewareValidateRefreshToken (exampleHandler "h1")
        (requestWithAuthorization "Bearer rrr.sss.ttt")) ∨
      Forwards (requestWithAuthorization "Bearer rrr.sss.ttt")
        (MiddlewareValidateRefreshToken (exampleHandler "h1")
          (requestWithAuthorization "Bearer rrr.sss.ttt"))) ∧
    (ShortCircuits (MiddlewareValidateRefreshToken (exampleHandler "h1")
        (requestWithAuthorization "Bearer ggg.hhh.iii")) ∧
     response (MiddlewareValidateRefreshToken (exampleHandler "h1")
        (requestWithAuthorization "Bearer ggg.hhh.iii"))
      = badRequest "Unable to fetch corresponding user") :=
  ⟨(stage_short_circuits_or_forwards (exampleHandler "h1")
      (requestWithAuthorization "Bearer rrr.sss.ttt")).2.2.1.1
      (by
        intro ctx id
        by_cases h : id = "u1" <;> simp [exampleHandler, exampleRepo, h]),
   (stage_short_circuits_or_forwards (exampleHandler "h1")
      (requestWithAuthorization "Bearer ggg.hhh.iii")).2.2.2
      "ggg.hhh.iii" "u2" "u2:h9" (by decide) (by decide) (by decide)⟩

/-- C9: in each of the three stages, on every path, the first effect sets the
response header `Content-Type` to `application/json`, before any status code
or body is written and before the next handler is invoked, and the stage sets
no response header afterwards. -/
theorem stage_sets_content_type_first (uh : UserHandler) (r : Request) :
    ContentTypeFirst (MiddlewareValidateUser uh r) ∧
    ContentTypeFirst (MiddlewareValidateAccessToken uh r) ∧
    ContentTypeFirst (MiddlewareValidateRefreshToken uh r) :=
  ⟨validate_stage_contentType uh r, access_stage_contentType uh r,
    refresh_stage_contentType uh r⟩

end Handlers
